import Mathlib

/-!
Shallow embedding of the simple_aiohttp_webapp task tracker
(src/app/db.py, src/app/handlers.py, src/app/middlewares.py,
src/app/utils.py) and verification of its specification claims.

Modelling conventions:
* Python `None` / SQL `NULL` for a field is `Option.none`; `datetime.date`
  objects are identified with their ISO string (so `date.fromisoformat` and
  `date.isoformat` are the identity on that string); `datetime` instants are
  abstract `Nat` ticks, and `datetime.isoformat` is an injective rendering
  `datetimeIso`.
* The tasks table is a `List Task`; an SQL statement touching rows matching
  `id = $i AND user_id = $j` acts on every list entry satisfying that
  predicate, and `execute` reporting `UPDATE 1` / `DELETE 1` is modelled as
  the matched-row count being exactly 1.
* `ORDER BY` is modelled with `List.insertionSort` over the comparator that
  the SQL `CASE`/`DESC` keys induce (SQL fixes the order only up to that
  comparator).
-/

namespace App

/-- A task row, with the columns of the `tasks` table
(src/app/db.py SELECT lists). -/
structure Task where
  id : Nat
  user_id : Nat
  name : String
  description : String
  status : String
  expiration_date : Option String
  priority : Int
  created : Nat
  last_status_modified : Nat
  deriving DecidableEq, Repr

/-- Python truthiness of an `Optional[str]`: `None` and `""` are falsy. -/
def pyTruthyStr : Option String → Bool
  | none => false
  | some s => s ≠ ""

/-- Python truthiness of an `Optional[int]`: `None` and `0` are falsy. -/
def pyTruthyInt : Option Int → Bool
  | none => false
  | some n => n ≠ 0

/-- The `WHERE id = $i AND user_id = $j` row predicate used by
`get_task_by_id`, `update_task` and `delete_task` (src/app/db.py). -/
def rowMatches (task_id user_id : Nat) (t : Task) : Bool :=
  t.id == task_id && t.user_id == user_id

/-- The `CASE status WHEN 'in_progress' THEN 1 WHEN 'new' THEN 2
WHEN 'done' THEN 3 END` sort key of src/app/db.py get_tasks /
get_tasks_by_statuses; any other status yields SQL NULL, which sorts after
all numbers in ascending order, hence rank 4. -/
def statusRank (s : String) : Nat :=
  if s = "in_progress" then 1
  else if s = "new" then 2
  else if s = "done" then 3
  else 4

/-- The three-key comparator of the `ORDER BY` clause in src/app/db.py:
status rank ascending, then `priority DESC`, then
`last_status_modified DESC`. -/
def TaskOrd (a b : Task) : Prop :=
  statusRank a.status < statusRank b.status ∨
    (statusRank a.status = statusRank b.status ∧
      (b.priority < a.priority ∨
        (a.priority = b.priority ∧
          b.last_status_modified ≤ a.last_status_modified)))

instance : DecidableRel TaskOrd := by
  unfold TaskOrd
  infer_instance

instance : IsTotal Task TaskOrd := by
  constructor
  intro a b
  unfold TaskOrd
  omega

instance : IsTrans Task TaskOrd := by
  constructor
  intro a b c hab hbc
  unfold TaskOrd at *
  omega

/-- `Database.get_tasks` (src/app/db.py:90-112): the user's rows, ordered by
the three-key comparator. -/
def get_tasks (tasks : List Task) (user_id : Nat) : List Task :=
  List.insertionSort TaskOrd (tasks.filter (fun t => t.user_id == user_id))

/-- `Database.get_tasks_by_statuses` (src/app/db.py:114-135): the user's rows
with `status = ANY(statuses)`, ordered by the same comparator. -/
def get_tasks_by_statuses (tasks : List Task) (user_id : Nat)
    (statuses : List String) : List Task :=
  List.insertionSort TaskOrd
    (tasks.filter (fun t => t.user_id == user_id && statuses.contains t.status))

/-- `Database.get_task_by_id` (src/app/db.py:137-151): `fetchrow` on
`WHERE id = $1 AND user_id = $2`. -/
def get_task_by_id (tasks : List Task) (user_id task_id : Nat) : Option Task :=
  (tasks.filter (fun t => rowMatches task_id user_id t)).head?

/-- The number of `SET` clauses accumulated by `Database.update_task`
(src/app/db.py:174-197): one per truthy scalar field, two for a truthy
`status` (it also appends `last_status_modified = NOW()`), and always one
for `expiration_date` — the `if expiration_date is not None ... else`
appends a clause on both branches. -/
def patchFieldCount (name description status : Option String)
    (_expiration_date : Option String) (priority : Option Int) : Nat :=
  (if pyTruthyStr name then 1 else 0) +
  (if pyTruthyStr description then 1 else 0) +
  (if pyTruthyStr status then 2 else 0) +
  1 +
  (if pyTruthyInt priority then 1 else 0)

/-- The effect of `Database.update_task`'s accumulated `SET` clauses on one
matched row (src/app/db.py:174-195): truthy `name`/`description` overwrite;
truthy `status` overwrites and stamps `last_status_modified = NOW()`;
`expiration_date` is assigned on both branches (`$n` or `NULL`), i.e. it is
set to exactly the supplied optional value; truthy `priority` overwrites. -/
def applyPatch (now : Nat) (name description status expiration_date : Option String)
    (priority : Option Int) (t : Task) : Task :=
  let t1 := if pyTruthyStr name then { t with name := name.getD t.name } else t
  let t2 := if pyTruthyStr description then
      { t1 with description := description.getD t1.description } else t1
  let t3 := if pyTruthyStr status then
      { t2 with status := status.getD t2.status, last_status_modified := now } else t2
  let t4 := { t3 with expiration_date := expiration_date }
  let t5 := if pyTruthyInt priority then
      { t4 with priority := priority.getD t4.priority } else t4
  t5

/-- `Database.update_task` (src/app/db.py:153-208): if no `SET` clause was
accumulated, return `False` without touching the table; otherwise run the
`UPDATE ... WHERE id AND user_id` and report `True` iff the status line is
`UPDATE 1`, i.e. exactly one row matched. -/
def update_task (now : Nat) (tasks : List Task) (task_id user_id : Nat)
    (name description status expiration_date : Option String)
    (priority : Option Int) : List Task × Bool :=
  if patchFieldCount name description status expiration_date priority = 0 then
    (tasks, false)
  else
    (tasks.map (fun t =>
        if rowMatches task_id user_id t then
          applyPatch now name description status expiration_date priority t
        else t),
     tasks.countP (fun t => rowMatches task_id user_id t) == 1)

/-- `Database.delete_task` (src/app/db.py:210-223): delete the rows matching
`id AND user_id`; `True` iff the status line is `DELETE 1`. -/
def delete_task (tasks : List Task) (task_id user_id : Nat) : List Task × Bool :=
  (tasks.filter (fun t => !(rowMatches task_id user_id t)),
   tasks.countP (fun t => rowMatches task_id user_id t) == 1)

/-- `Database.create_task` (src/app/db.py:62-88): INSERT with
`last_status_modified = NOW()` (and `created` server-assigned at the same
instant), returning the fresh serial id. -/
def db_create_task (now : Nat) (tasks : List Task) (name description status : String)
    (user_id : Nat) (expiration_date : Option String) (priority : Int) :
    List Task × Nat :=
  let id := tasks.foldl (fun m t => max m t.id) 0 + 1
  (tasks ++ [⟨id, user_id, name, description, status, expiration_date,
             priority, now, now⟩], id)

/-! ### JSON request/response values (src/app/handlers.py) -/

/-- A Python value as it appears in request bodies and response payloads:
JSON scalars plus the `datetime.date` / `datetime` objects that raw DB rows
carry. A `date` object is identified by its ISO rendering; a `datetime` is
an abstract instant. -/
inductive PyVal where
  | null
  | str (s : String)
  | int (n : Int)
  | pydate (iso : String)
  | pydatetime (t : Nat)
  deriving DecidableEq, Repr

/-- A Python dict with string keys, as decoded from a JSON body or built as
a response payload. -/
abbrev Dict := List (String × PyVal)

/-- `data[k]` lookup / `k in data` membership on a dict. -/
def dictLookup (d : Dict) (k : String) : Option PyVal :=
  match d.find? (fun kv => kv.1 == k) with
  | some kv => some kv.2
  | none => none

/-- The field table of `validate_task_data` (src/app/handlers.py:71-77):
`(field, not_null)` pairs, in source order. -/
def validateFields : List (String × Bool) :=
  [("name", true), ("description", true), ("status", true),
   ("expiration_date", false), ("priority", true)]

/-- The loop of `validate_task_data` (src/app/handlers.py:70-79): for each
`(field, not_null)`, `if field not in data or (not_null and data[field] is
None): raise ValidationError(f"{field} is required")`. -/
def checkFields : List (String × Bool) → Dict → Except String Unit
  | [], _ => .ok ()
  | (field, notNull) :: rest, data =>
    match dictLookup data field with
    | none => .error (field ++ " is required")
    | some v =>
      if notNull ∧ v = PyVal.null then .error (field ++ " is required")
      else checkFields rest data

/-- The members of `tuple(StatusEnum)` (src/app/handlers.py:19-22), in
declaration order; as a str-enum its members compare equal to their plain
string values. -/
def statusEnumVals : List String := ["new", "in_progress", "done"]

/-- `data["status"] not in tuple(StatusEnum)` (src/app/handlers.py:81):
membership via equality; a non-string value equals no enum member. -/
def isValidStatus (v : PyVal) : Bool :=
  match v with
  | .str s => statusEnumVals.contains s
  | _ => false

/-- `validate_task_data` (src/app/handlers.py:70-82): the presence/non-null
loop, then the status-enum membership check. The `none` fallback in the
final match is unreachable: the loop already guarantees `"status"` is a key. -/
def validate_task_data (data : Dict) : Except String Unit :=
  match checkFields validateFields data with
  | .error e => .error e
  | .ok _ =>
    match dictLookup data "status" with
    | some v => if isValidStatus v then .ok () else .error "Invalid status"
    | none => .error "Invalid status"

/-- Injective rendering of `datetime.isoformat()` on an abstract instant. -/
def datetimeIso (t : Nat) : String := toString t

/-- `serialize_task` (src/app/handlers.py:98-111) on a DB row: `status`
through the str-enum (its string value), `expiration_date` via Python
`and` (`None` stays `None`, a date renders to its ISO string), `created` and
`last_status_modified` via `isoformat()`. -/
def serialize_task (t : Task) : Dict :=
  [("id", .int t.id),
   ("name", .str t.name),
   ("description", .str t.description),
   ("status", .str t.status),
   ("expiration_date",
     match t.expiration_date with
     | some d => .str d
     | none => .null),
   ("priority", .int t.priority),
   ("created", .str (datetimeIso t.created)),
   ("last_status_modified", .str (datetimeIso t.last_status_modified))]

/-- A raw DB row as the dict that `asyncpg` hands back (src/app/db.py SELECT
column list): `created` / `last_status_modified` are `datetime` objects and
`expiration_date` is a `date` object or `None`, not strings. -/
def rowDict (t : Task) : Dict :=
  [("id", .int t.id),
   ("name", .str t.name),
   ("description", .str t.description),
   ("status", .str t.status),
   ("created", .pydatetime t.created),
   ("last_status_modified", .pydatetime t.last_status_modified),
   ("expiration_date",
     match t.expiration_date with
     | some d => .pydate d
     | none => .null),
   ("priority", .int t.priority)]

/-- Project a validated string field out of the request dict; request fields
are assumed well-typed per the DB schema (a non-string here would fail at
the driver in the source, outside this model). -/
def pyGetStr (d : Dict) (k : String) : String :=
  match dictLookup d k with
  | some (.str s) => s
  | _ => ""

/-- Project a validated integer field out of the request dict. -/
def pyGetInt (d : Dict) (k : String) : Int :=
  match dictLookup d k with
  | some (.int n) => n
  | _ => 0

/-- `if data.get("expiration_date"): date.fromisoformat(...) else None`
(src/app/handlers.py:123-126 and the same Python-`and` pattern in
`deserialize_task`, lines 90-93): absent, `None` and `""` are falsy and give
`None`; a non-empty string parses to the date it denotes (identified with
the string itself). -/
def getExpirationDate (d : Dict) : Option String :=
  match dictLookup d "expiration_date" with
  | some (.str s) => if s = "" then none else some s
  | _ => none

/-- An HTTP response as the handlers produce it. -/
inductive Resp where
  | badRequest (text : String)
  | unauthorized (text : String)
  | jsonMessage (msg : String)
  | jsonTask (d : Dict)
  | jsonTasks (ds : List Dict)
  | notFound
  deriving DecidableEq, Repr

/-- `create_task` handler (src/app/handlers.py:114-137): validate (400 on
`ValidationError`), parse `expiration_date`, insert via
`Database.create_task`. -/
def handler_create_task (now user_id : Nat) (data : Dict) (tasks : List Task) :
    Resp × List Task :=
  match validate_task_data data with
  | .error e => (.badRequest e, tasks)
  | .ok _ =>
    let expiration_date := getExpirationDate data
    let r := db_create_task now tasks (pyGetStr data "name")
      (pyGetStr data "description") (pyGetStr data "status") user_id
      expiration_date (pyGetInt data "priority")
    (.jsonMessage "Task created successfully", r.1)

/-- `get_tasks` handler (src/app/handlers.py:140-152): choose filtered or
unfiltered query by the truthiness of `request.query.get("status")`; then
`for task in tasks: task = serialize_task(task)` — the loop rebinds its
local name and discards the serialized dict, so the list handed to
`json_response` still holds the raw rows. -/
def handler_get_tasks (tasks : List Task) (user_id : Nat)
    (statusQuery : List String) : Resp :=
  let rows :=
    match statusQuery with
    | [] => get_tasks tasks user_id
    | s :: _ =>
      if s = "" then get_tasks tasks user_id
      else get_tasks_by_statuses tasks user_id statusQuery
  .jsonTasks (rows.map rowDict)

/-- `get_task` handler (src/app/handlers.py:155-163): owner-scoped lookup,
serialized on success, 404 on absence. -/
def handler_get_task (tasks : List Task) (user_id task_id : Nat) : Resp :=
  match get_task_by_id tasks user_id task_id with
  | some t => .jsonTask (serialize_task t)
  | none => .notFound

/-- `update_task` handler (src/app/handlers.py:166-188): owner-scoped
existence check (404), then `validate_task_data` (400), then
`deserialize_task` and the store update. After validation the four
`not_null` fields are present and non-null; `deserialize_task` passes
`name`/`description`/`priority`/`status` through and maps
`expiration_date` by the Python-`and` pattern. -/
def handler_update_task (now user_id task_id : Nat) (data : Dict)
    (tasks : List Task) : Resp × List Task :=
  match get_task_by_id tasks user_id task_id with
  | none => (.notFound, tasks)
  | some _ =>
    match validate_task_data data with
    | .error e => (.badRequest e, tasks)
    | .ok _ =>
      let r := update_task now tasks task_id user_id
        (some (pyGetStr data "name")) (some (pyGetStr data "description"))
        (some (pyGetStr data "status")) (getExpirationDate data)
        (some (pyGetInt data "priority"))
      (.jsonMessage "Task updated successfully", r.1)

/-! ### Sessions, login and the authorization gate
(src/app/utils.py, src/app/handlers.py:41-63, src/app/middlewares.py) -/

/-- A row of the `users` table. -/
structure User where
  id : Nat
  email : String
  password : String
  deriving DecidableEq, Repr

/-- Abstract model of `bcrypt.checkpw` (src/app/utils.py:14-15): the stored
hash verifies exactly the plaintext it was derived from. -/
def check_password (password hashed : String) : Bool :=
  hashed == "bcrypt:" ++ password

/-- Abstract model of `jwt.encode({"user_id": ..., "exp": ...}, SECRET_KEY,
HS256)` (src/app/utils.py:18-20): an injective encoding of the `user_id`
claim. -/
def generate_jwt (user_id : Nat) : String := toString user_id

/-- Abstract model of `jwt.decode` followed by `payload["user_id"]`
(src/app/utils.py:23-29, src/app/middlewares.py:15-16): recover the claim,
failing on anything `generate_jwt` cannot have produced. -/
def decode_jwt (token : String) : Option Nat := token.toNat?

/-- Outcome of the `login_user` handler: either 401, or the 200 response
together with the cookies it sets. -/
inductive LoginResult where
  | unauthorized (text : String)
  | success (cookies : List (String × String))
  deriving DecidableEq, Repr

/-- `login_user` (src/app/handlers.py:41-63): look the user up by email,
check the password, and on success set the single identity cookie — named
`"token"` — to the signed JWT. -/
def login_user (users : List User) (email password : String) : LoginResult :=
  match users.find? (fun u => u.email == email) with
  | none => .unauthorized "Invalid credentials"
  | some u =>
    if check_password password u.password then
      .success [("token", generate_jwt u.id)]
    else
      .unauthorized "Invalid credentials"

/-- `request.cookies.get(name)`. -/
def cookies_get (cookies : List (String × String)) (name : String) :
    Option String :=
  match cookies.find? (fun kv => kv.1 == name) with
  | some kv => some kv.2
  | none => none

/-- Outcome of the authorization gate for one request. -/
inductive AuthResult where
  | passthroughPublic
  | unauthorized (text : String)
  | authenticated (user_id : Nat)
  deriving DecidableEq, Repr

/-- `jwt_auth_middleware` (src/app/middlewares.py:5-20): public paths pass
through; otherwise the token is read from the cookie named `"jwt_token"`,
absence is a 401, and a decoded token attaches `user_id` to the request. -/
def jwt_auth_middleware (path : String) (cookies : List (String × String)) :
    AuthResult :=
  if path = "/login" ∨ path = "/register" then .passthroughPublic
  else
    match cookies_get cookies "jwt_token" with
    | none => .unauthorized "Authorization header is missing or invalid"
    | some token =>
      match decode_jwt token with
      | some user_id => .authenticated user_id
      | none => .unauthorized "Invalid token"

/-! ### Helper lemmas -/

/-- `update_task` always accumulates at least the `expiration_date` clause,
so its `SET` list is never empty. -/
theorem patchFieldCount_ne_zero (name description status expiration_date : Option String)
    (priority : Option Int) :
    patchFieldCount name description status expiration_date priority ≠ 0 := by
  unfold patchFieldCount
  omega

/-- `update_task` therefore always takes its non-empty-`SET` branch. -/
theorem update_task_eq (now : Nat) (tasks : List Task) (task_id user_id : Nat)
    (name description status expiration_date : Option String) (priority : Option Int) :
    update_task now tasks task_id user_id name description status expiration_date priority =
      (tasks.map (fun t =>
          if rowMatches task_id user_id t then
            applyPatch now name description status expiration_date priority t
          else t),
       tasks.countP (fun t => rowMatches task_id user_id t) == 1) := by
  unfold update_task
  rw [if_neg (patchFieldCount_ne_zero name description status expiration_date priority)]

theorem applyPatch_id (now : Nat) (nm ds st exp : Option String) (pr : Option Int)
    (t : Task) : (applyPatch now nm ds st exp pr t).id = t.id := by
  unfold applyPatch
  dsimp only
  split <;> split <;> split <;> split <;> rfl

theorem applyPatch_user_id (now : Nat) (nm ds st exp : Option String) (pr : Option Int)
    (t : Task) : (applyPatch now nm ds st exp pr t).user_id = t.user_id := by
  unfold applyPatch
  dsimp only
  split <;> split <;> split <;> split <;> rfl

theorem applyPatch_expiration_date (now : Nat) (nm ds st exp : Option String)
    (pr : Option Int) (t : Task) :
    (applyPatch now nm ds st exp pr t).expiration_date = exp := by
  unfold applyPatch
  dsimp only
  split <;> split <;> split <;> split <;> rfl

theorem applyPatch_lsm_of_status_truthy (now : Nat) (nm ds exp : Option String)
    (pr : Option Int) (s : String) (hs : s ≠ "") (t : Task) :
    (applyPatch now nm ds (some s) exp pr t).last_status_modified = now := by
  unfold applyPatch
  dsimp only
  rw [if_pos (show pyTruthyStr (some s) = true by simpa [pyTruthyStr] using hs)]
  split <;> split <;> split <;> rfl

theorem applyPatch_lsm_of_status_none (now : Nat) (nm ds exp : Option String)
    (pr : Option Int) (t : Task) :
    (applyPatch now nm ds none exp pr t).last_status_modified =
      t.last_status_modified := by
  unfold applyPatch
  dsimp only
  rw [if_neg (show ¬ pyTruthyStr (none : Option String) = true by simp [pyTruthyStr])]
  split <;> split <;> split <;> rfl

/-- An all-`None` patch reduces to clearing `expiration_date`. -/
theorem applyPatch_all_none (now : Nat) (t : Task) :
    applyPatch now none none none none none t = { t with expiration_date := none } :=
  rfl

/-- From per-row non-ownership to failure of the row predicate. -/
theorem rowMatches_eq_false (task_id user_id : Nat) (t : Task)
    (h : t.id = task_id → t.user_id ≠ user_id) :
    rowMatches task_id user_id t = false := by
  unfold rowMatches
  by_cases hid : t.id = task_id
  · simp [hid, h hid]
  · simp [hid]

/-- `checkFields` only succeeds when every listed field key is present. -/
theorem checkFields_ok_mem (fields : List (String × Bool)) (data : Dict)
    (h : checkFields fields data = .ok ()) :
    ∀ fb ∈ fields, (dictLookup data fb.1).isSome = true := by
  induction fields with
  | nil => intro fb hfb; cases hfb
  | cons fb rest ih =>
    intro gb hgb
    unfold checkFields at h
    obtain ⟨f, b⟩ := fb
    cases hl : dictLookup data f with
    | none => rw [hl] at h; cases h
    | some v =>
      rw [hl] at h
      dsimp only at h
      by_cases hc : (b = true) ∧ v = PyVal.null
      · rw [if_pos hc] at h; cases h
      · rw [if_neg hc] at h
        rcases List.mem_cons.mp hgb with rfl | hgb
        · simp [hl]
        · exact ih h gb hgb

/-- One step of the `validate_task_data` field loop. -/
theorem checkFields_cons (field : String) (notNull : Bool)
    (rest : List (String × Bool)) (data : Dict) :
    checkFields ((field, notNull) :: rest) data =
      match dictLookup data field with
      | none => .error (field ++ " is required")
      | some v =>
        if notNull = true ∧ v = PyVal.null then .error (field ++ " is required")
        else checkFields rest data :=
  rfl

/-- A failing field loop makes `validate_task_data` fail with its error. -/
theorem validate_of_checkFields_error (data : Dict) (e : String)
    (h : checkFields validateFields data = .error e) :
    validate_task_data data = .error e := by
  unfold validate_task_data
  rw [h]

/-- A successful `validate_task_data` implies a successful field loop. -/
theorem validate_ok_checkFields (data : Dict)
    (h : validate_task_data data = .ok ()) :
    checkFields validateFields data = .ok () := by
  unfold validate_task_data at h
  cases hcf : checkFields validateFields data with
  | error e => rw [hcf] at h; cases h
  | ok u => cases u; rfl

/-! ### Claims -/

/-- C2, counterexample: with a task `(id 1, owner 1)` present, calling
`update_task` with all five optional parameters `None` does NOT return
`False`: it performs an update (clearing `expiration_date`) and returns
`True`, because the `expiration_date` else-branch always contributes a
`SET` clause. -/
theorem C2_counterexample :
    update_task 5 [⟨1, 1, "a", "b", "new", some "2024-01-01", 5, 0, 0⟩] 1 1
        none none none none none =
      ([⟨1, 1, "a", "b", "new", none, 5, 0, 0⟩], true) := by
  decide

/-- C2, amended: an all-`None` patch is not a failing no-op; the
`expiration_date` branch always contributes the clause
`expiration_date = NULL`, so the call clears `expiration_date` on the
matched row and reports success iff exactly one row matches both
`task_id` and `user_id`. The zero-fields failure branch is unreachable. -/
theorem C2_all_none_patch_clears_expiration (now : Nat) (tasks : List Task)
    (task_id user_id : Nat) :
    update_task now tasks task_id user_id none none none none none =
      (tasks.map (fun t =>
          if rowMatches task_id user_id t then { t with expiration_date := none }
          else t),
       tasks.countP (fun t => rowMatches task_id user_id t) == 1) := by
  rw [update_task_eq]
  rfl

/-- C4: after any store update, every row matching the targeted
`task_id`/`user_id` holds exactly the patch's `expiration_date` value:
`none` (absent-or-null parameter) clears the stored date even if previously
set, and `some v` stores exactly `v`. -/
theorem C4_expiration_overwrite_or_clear (now : Nat) (tasks : List Task)
    (task_id user_id : Nat) (nm ds st exp : Option String) (pr : Option Int)
    (t' : Task)
    (hmem : t' ∈ (update_task now tasks task_id user_id nm ds st exp pr).1)
    (hid : t'.id = task_id) (huid : t'.user_id = user_id) :
    t'.expiration_date = exp := by
  rw [update_task_eq] at hmem
  simp only [List.mem_map] at hmem
  obtain ⟨t, ht, rfl⟩ := hmem
  by_cases hm : rowMatches task_id user_id t
  · rw [if_pos hm]
    exact applyPatch_expiration_date now nm ds st exp pr t
  · rw [if_neg hm] at hid huid
    unfold rowMatches at hm
    simp [hid, huid] at hm

/-- C4, witness at a concrete input: updating task 1 of user 1 with an
explicit date stores exactly that date. -/
theorem C4_witness :
    (⟨1, 1, "a", "b", "new", some "2025-01-02", 5, 0, 0⟩ : Task) ∈
      (update_task 9 [⟨1, 1, "a", "b", "new", some "2020-12-31", 5, 0, 0⟩] 1 1
        none none none (some "2025-01-02") none).1 ∧
    (⟨1, 1, "a", "b", "new", some "2025-01-02", 5, 0, 0⟩ : Task).expiration_date =
      some "2025-01-02" :=
  ⟨by decide,
   C4_expiration_overwrite_or_clear 9
     [⟨1, 1, "a", "b", "new", some "2020-12-31", 5, 0, 0⟩] 1 1
     none none none (some "2025-01-02") none
     ⟨1, 1, "a", "b", "new", some "2025-01-02", 5, 0, 0⟩ (by decide) rfl rfl⟩

/-- C5: (a) a patch carrying only `priority` leaves every row's
`last_status_modified` unchanged; (b) a patch whose `status` is a (truthy)
string stamps `last_status_modified` to the update instant on every matched
row, with no assumption that the new status differs from the old one. -/
theorem C5_status_timestamp_coupling (now : Nat) (tasks : List Task)
    (task_id user_id : Nat) :
    (∀ p : Int,
      (update_task now tasks task_id user_id none none none none (some p)).1.map
          Task.last_status_modified =
        tasks.map Task.last_status_modified) ∧
    (∀ (nm ds exp : Option String) (pr : Option Int) (s : String), s ≠ "" →
      ∀ t' ∈ (update_task now tasks task_id user_id nm ds (some s) exp pr).1,
        t'.id = task_id → t'.user_id = user_id →
        t'.last_status_modified = now) := by
  constructor
  · intro p
    rw [update_task_eq]
    dsimp only
    rw [List.map_map]
    apply List.map_congr_left
    intro t _
    by_cases hm : rowMatches task_id user_id t
    · simp only [Function.comp, if_pos hm]
      exact applyPatch_lsm_of_status_none now none none none (some p) t
    · simp only [Function.comp, if_neg hm]
  · intro nm ds exp pr s hs t' hmem hid huid
    rw [update_task_eq] at hmem
    simp only [List.mem_map] at hmem
    obtain ⟨t, ht, rfl⟩ := hmem
    by_cases hm : rowMatches task_id user_id t
    · rw [if_pos hm]
      exact applyPatch_lsm_of_status_truthy now nm ds exp pr s hs t
    · rw [if_neg hm] at hid huid
      unfold rowMatches at hm
      simp [hid, huid] at hm

/-- C5, witness: a priority-only patch keeps `last_status_modified = 3`;
re-setting the status to its current value `"new"` stamps it to 9. -/
theorem C5_witness :
    (update_task 9 [⟨1, 1, "a", "b", "new", none, 5, 0, 3⟩] 1 1
        none none none none (some 7)).1.map Task.last_status_modified =
      [⟨1, 1, "a", "b", "new", none, 5, 0, 3⟩].map Task.last_status_modified ∧
    (⟨1, 1, "a", "b", "new", none, 5, 0, 9⟩ : Task).last_status_modified = 9 :=
  ⟨(C5_status_timestamp_coupling 9 [⟨1, 1, "a", "b", "new", none, 5, 0, 3⟩] 1 1).1 7,
   (C5_status_timestamp_coupling 9 [⟨1, 1, "a", "b", "new", none, 5, 0, 3⟩] 1 1).2
     none none none none "new" (by decide)
     ⟨1, 1, "a", "b", "new", none, 5, 0, 9⟩ (by decide) rfl rfl⟩

/-- C6: for tasks whose statuses lie in the three-value enumeration, the
list query returns exactly the user's tasks (a permutation of the
owner-filtered table) arranged by the three-key comparator — status rank
`in_progress < new < done`, then priority descending, then
`last_status_modified` descending — and the status-filtered query returns
exactly the user's tasks with status in the supplied set, in the same
order. -/
theorem C6_list_ordering (tasks : List Task) (user_id : Nat)
    (statuses : List String)
    (h : ∀ t ∈ tasks, t.status ∈ statusEnumVals) :
    (get_tasks tasks user_id).Perm
        (tasks.filter (fun t => t.user_id == user_id)) ∧
    (get_tasks tasks user_id).Pairwise TaskOrd ∧
    (get_tasks_by_statuses tasks user_id statuses).Perm
        (tasks.filter (fun t =>
          t.user_id == user_id && statuses.contains t.status)) ∧
    (get_tasks_by_statuses tasks user_id statuses).Pairwise TaskOrd := by
  exact ⟨List.perm_insertionSort TaskOrd _, List.sorted_insertionSort TaskOrd _,
    List.perm_insertionSort TaskOrd _, List.sorted_insertionSort TaskOrd _⟩

/-- C6, witness: three tasks of user 1 (statuses `done`, `new`,
`in_progress`) listed and filtered to `{"done"}`. -/
theorem C6_witness :
    (∀ t ∈ [(⟨1, 1, "a", "b", "done", none, 5, 0, 0⟩ : Task),
            ⟨2, 1, "c", "d", "new", none, 9, 0, 1⟩,
            ⟨3, 1, "e", "f", "in_progress", none, 1, 0, 2⟩],
      t.status ∈ statusEnumVals) ∧
    ((get_tasks [(⟨1, 1, "a", "b", "done", none, 5, 0, 0⟩ : Task),
            ⟨2, 1, "c", "d", "new", none, 9, 0, 1⟩,
            ⟨3, 1, "e", "f", "in_progress", none, 1, 0, 2⟩] 1).Perm
        ([(⟨1, 1, "a", "b", "done", none, 5, 0, 0⟩ : Task),
          ⟨2, 1, "c", "d", "new", none, 9, 0, 1⟩,
          ⟨3, 1, "e", "f", "in_progress", none, 1, 0, 2⟩].filter
            (fun t => t.user_id == 1)) ∧
      (get_tasks [(⟨1, 1, "a", "b", "done", none, 5, 0, 0⟩ : Task),
            ⟨2, 1, "c", "d", "new", none, 9, 0, 1⟩,
            ⟨3, 1, "e", "f", "in_progress", none, 1, 0, 2⟩] 1).Pairwise TaskOrd ∧
      (get_tasks_by_statuses [(⟨1, 1, "a", "b", "done", none, 5, 0, 0⟩ : Task),
            ⟨2, 1, "c", "d", "new", none, 9, 0, 1⟩,
            ⟨3, 1, "e", "f", "in_progress", none, 1, 0, 2⟩] 1 ["done"]).Perm
        ([(⟨1, 1, "a", "b", "done", none, 5, 0, 0⟩ : Task),
          ⟨2, 1, "c", "d", "new", none, 9, 0, 1⟩,
          ⟨3, 1, "e", "f", "in_progress", none, 1, 0, 2⟩].filter
            (fun t => t.user_id == 1 && ["done"].contains t.status)) ∧
      (get_tasks_by_statuses [(⟨1, 1, "a", "b", "done", none, 5, 0, 0⟩ : Task),
            ⟨2, 1, "c", "d", "new", none, 9, 0, 1⟩,
            ⟨3, 1, "e", "f", "in_progress", none, 1, 0, 2⟩] 1
          ["done"]).Pairwise TaskOrd) :=
  ⟨by decide,
   C6_list_ordering [(⟨1, 1, "a", "b", "done", none, 5, 0, 0⟩ : Task),
      ⟨2, 1, "c", "d", "new", none, 9, 0, 1⟩,
      ⟨3, 1, "e", "f", "in_progress", none, 1, 0, 2⟩] 1 ["done"] (by decide)⟩

/-- C7: if no task with the targeted id belongs to user A, then the
owner-scoped get reports NotFound (`None` at the store, 404 at the
handler), and the owner-scoped update and delete leave the table unchanged
and return `False`; B's task data is never produced. -/
theorem C7_cross_owner_isolation (tasks : List Task) (userA task_id now : Nat)
    (nm ds st exp : Option String) (pr : Option Int)
    (h : ∀ t ∈ tasks, t.id = task_id → t.user_id ≠ userA) :
    get_task_by_id tasks userA task_id = none ∧
    handler_get_task tasks userA task_id = .notFound ∧
    update_task now tasks task_id userA nm ds st exp pr = (tasks, false) ∧
    delete_task tasks task_id userA = (tasks, false) := by
  have hrow : ∀ t ∈ tasks, rowMatches task_id userA t = false := fun t ht =>
    rowMatches_eq_false task_id userA t (h t ht)
  have hget : get_task_by_id tasks userA task_id = none := by
    unfold get_task_by_id
    rw [List.filter_eq_nil_iff.mpr (by simpa using hrow)]
    rfl
  have hcount : tasks.countP (fun t => rowMatches task_id userA t) = 0 :=
    List.countP_eq_zero.mpr (by simpa using hrow)
  refine ⟨hget, ?_, ?_, ?_⟩
  · unfold handler_get_task
    rw [hget]
  · rw [update_task_eq]
    rw [hcount]
    rw [List.map_congr_left (fun t ht => by rw [if_neg (by simp [hrow t ht])])]
    rw [List.map_id']
    rfl
  · unfold delete_task
    rw [hcount]
    rw [List.filter_eq_self.mpr (fun t ht => by simp [hrow t ht])]
    rfl

/-- C7, witness: user 1 probing task 1, which belongs to user 2. -/
theorem C7_witness :
    get_task_by_id [(⟨1, 2, "a", "b", "new", none, 5, 0, 0⟩ : Task)] 1 1 = none ∧
    handler_get_task [(⟨1, 2, "a", "b", "new", none, 5, 0, 0⟩ : Task)] 1 1 =
      .notFound ∧
    update_task 3 [(⟨1, 2, "a", "b", "new", none, 5, 0, 0⟩ : Task)] 1 1
        (some "x") none none none none =
      ([(⟨1, 2, "a", "b", "new", none, 5, 0, 0⟩ : Task)], false) ∧
    delete_task [(⟨1, 2, "a", "b", "new", none, 5, 0, 0⟩ : Task)] 1 1 =
      ([(⟨1, 2, "a", "b", "new", none, 5, 0, 0⟩ : Task)], false) :=
  C7_cross_owner_isolation [(⟨1, 2, "a", "b", "new", none, 5, 0, 0⟩ : Task)] 1 1 3
    (some "x") none none none none (by decide)

/-- C1: evaluation of the code at the failing configuration. Whatever user
logs in successfully, the resulting response carries its token in the
cookie named `"token"` (src/app/handlers.py:59-62), while the
authorization gate reads only the cookie named `"jwt_token"`
(src/app/middlewares.py:10); presenting the login cookies on a protected
request therefore always yields the missing-token 401, and no user id is
ever resolved from them. -/
theorem C1_login_cookie_never_authorizes (users : List User)
    (email password : String) (cookies : List (String × String))
    (h : login_user users email password = .success cookies) :
    jwt_auth_middleware "/tasks" cookies =
      .unauthorized "Authorization header is missing or invalid" := by
  unfold login_user at h
  cases hf : users.find? (fun u => u.email == email) with
  | none => rw [hf] at h; cases h
  | some u =>
    rw [hf] at h
    dsimp only at h
    by_cases hc : check_password password u.password = true
    · rw [if_pos hc] at h
      cases h
      rfl
    · rw [if_neg hc] at h
      cases h

/-- C1, witness: a concrete registered user logs in successfully, and the
gate rejects the request made with the very cookies that login set. -/
theorem C1_witness :
    jwt_auth_middleware "/tasks" [("token", "1")] =
      .unauthorized "Authorization header is missing or invalid" :=
  C1_login_cookie_never_authorizes [⟨1, "a@x.com", "bcrypt:p"⟩] "a@x.com" "p"
    [("token", "1")] rfl

/-- C3, counterexample: the PUT handler rejects a sparse patch. With task 1
owned by user 1 present, a request body carrying only `priority` is
answered with 400 `"name is required"` and the table is untouched — the
subset `{priority}` of the five fields is not acceptable at the
endpoint. -/
theorem C3_counterexample :
    handler_update_task 0 1 1 [("priority", PyVal.int 5)]
        [⟨1, 1, "a", "b", "new", none, 5, 0, 0⟩] =
      (.badRequest "name is required", [⟨1, 1, "a", "b", "new", none, 5, 0, 0⟩]) := by
  decide

/-- C3, amended: the PUT endpoint accepts only bodies that pass
`validate_task_data`, and any accepted body carries all five keys
(`expiration_date` may still be null-valued); a body failing validation is
rejected with the ValidationError text even when the targeted task exists,
so a request carrying only some of the five fields is rejected rather than
applied. Sparseness survives only below the endpoint, in the store's
update primitive. -/
theorem C3_endpoint_requires_all_keys (data : Dict) :
    (validate_task_data data = .ok () →
      ∀ k ∈ ["name", "description", "status", "expiration_date", "priority"],
        (dictLookup data k).isSome = true) ∧
    (∀ e, validate_task_data data = .error e →
      ∀ (now user_id task_id : Nat) (tasks : List Task) (t : Task),
        get_task_by_id tasks user_id task_id = some t →
        handler_update_task now user_id task_id data tasks =
          (.badRequest e, tasks)) := by
  constructor
  · intro h k hk
    have hcf := validate_ok_checkFields data h
    have hmem := checkFields_ok_mem validateFields data hcf
    have hk' : k = "name" ∨ k = "description" ∨ k = "status" ∨
        k = "expiration_date" ∨ k = "priority" := by simpa using hk
    rcases hk' with rfl | rfl | rfl | rfl | rfl
    · exact hmem ("name", true) (by decide)
    · exact hmem ("description", true) (by decide)
    · exact hmem ("status", true) (by decide)
    · exact hmem ("expiration_date", false) (by decide)
    · exact hmem ("priority", true) (by decide)
  · intro e he now user_id task_id tasks t hget
    unfold handler_update_task
    rw [hget, he]

/-- C3, witness: acceptance of a full body implies the `name` key is
present, and a priority-only body against an existing task is answered
with 400. -/
theorem C3_witness :
    (dictLookup
        [("name", PyVal.str "a"), ("description", PyVal.str "b"),
         ("status", PyVal.str "new"), ("expiration_date", PyVal.null),
         ("priority", PyVal.int 5)] "name").isSome = true ∧
    handler_update_task 0 1 1 [("priority", PyVal.int 9)]
        [⟨1, 1, "a", "b", "new", none, 5, 0, 0⟩] =
      (.badRequest "name is required", [⟨1, 1, "a", "b", "new", none, 5, 0, 0⟩]) :=
  ⟨(C3_endpoint_requires_all_keys
      [("name", PyVal.str "a"), ("description", PyVal.str "b"),
       ("status", PyVal.str "new"), ("expiration_date", PyVal.null),
       ("priority", PyVal.int 5)]).1 rfl "name" (by decide),
   (C3_endpoint_requires_all_keys [("priority", PyVal.int 9)]).2
     "name is required" rfl 0 1 1 [⟨1, 1, "a", "b", "new", none, 5, 0, 0⟩]
     ⟨1, 1, "a", "b", "new", none, 5, 0, 0⟩ rfl⟩

/-- C9, counterexample: a create body whose `name` is the empty string
passes `validate_task_data` (which only checks key presence and non-null)
and reaches persistence: the handler inserts the row with `name = ""` and
answers success, instead of rejecting with a ValidationError. -/
theorem C9_counterexample :
    validate_task_data
        [("name", PyVal.str ""), ("description", PyVal.str "b"),
         ("status", PyVal.str "new"), ("expiration_date", PyVal.null),
         ("priority", PyVal.int 5)] = .ok () ∧
    handler_create_task 7 1
        [("name", PyVal.str ""), ("description", PyVal.str "b"),
         ("status", PyVal.str "new"), ("expiration_date", PyVal.null),
         ("priority", PyVal.int 5)] [] =
      (.jsonMessage "Task created successfully",
       [⟨1, 1, "", "b", "new", none, 5, 7, 7⟩]) := by
  constructor
  · rfl
  · rfl

/-- C9, amended: create bodies whose `name` (resp. `description`) key is
missing or null-valued are rejected with the corresponding ValidationError;
emptiness of the string is never checked, so empty-string values pass
validation and reach persistence. -/
theorem C9_missing_or_null_rejected (data : Dict) :
    ((dictLookup data "name" = none ∨ dictLookup data "name" = some PyVal.null) →
      validate_task_data data = .error "name is required") ∧
    (∀ v, dictLookup data "name" = some v → v ≠ PyVal.null →
      (dictLookup data "description" = none ∨
        dictLookup data "description" = some PyVal.null) →
      validate_task_data data = .error "description is required") := by
  constructor
  · intro h
    apply validate_of_checkFields_error
    rcases h with h | h
    · simp only [validateFields, checkFields_cons, h]
      rfl
    · simp only [validateFields, checkFields_cons, h]
      simp
  · intro v hv hvn h
    apply validate_of_checkFields_error
    simp only [validateFields, checkFields_cons, hv]
    rw [if_neg (by simp [hvn])]
    rcases h with h | h
    · simp only [checkFields_cons, h]
      rfl
    · simp only [checkFields_cons, h]
      simp

/-- C9, witness: the empty body is rejected with `"name is required"`. -/
theorem C9_witness :
    validate_task_data [] = .error "name is required" :=
  (C9_missing_or_null_rejected []).1 (Or.inl rfl)

/-- C10: a body carrying `name`, `description` and `status` (present,
non-null) but no `expiration_date` key at all is rejected: validation
yields `"expiration_date is required"` and the create handler answers 400
without touching the table — key presence is demanded even for the
null-allowed field. -/
theorem C10_expiration_key_presence_required (data : Dict) (v1 v2 v3 : PyVal)
    (h1 : dictLookup data "name" = some v1) (h1n : v1 ≠ PyVal.null)
    (h2 : dictLookup data "description" = some v2) (h2n : v2 ≠ PyVal.null)
    (h3 : dictLookup data "status" = some v3) (h3n : v3 ≠ PyVal.null)
    (h4 : dictLookup data "expiration_date" = none) :
    validate_task_data data = .error "expiration_date is required" ∧
    ∀ (now user_id : Nat) (tasks : List Task),
      handler_create_task now user_id data tasks =
        (.badRequest "expiration_date is required", tasks) := by
  have hval : validate_task_data data = .error "expiration_date is required" := by
    apply validate_of_checkFields_error
    simp only [validateFields, checkFields_cons, h1]
    rw [if_neg (by simp [h1n])]
    simp only [checkFields_cons, h2]
    rw [if_neg (by simp [h2n])]
    simp only [checkFields_cons, h3]
    rw [if_neg (by simp [h3n])]
    simp only [checkFields_cons, h4]
    rfl
  refine ⟨hval, fun now user_id tasks => ?_⟩
  unfold handler_create_task
  rw [hval]

/-- C10, witness: a body with the four other fields but no
`expiration_date` key. -/
theorem C10_witness :
    validate_task_data
        [("name", PyVal.str "a"), ("description", PyVal.str "b"),
         ("status", PyVal.str "new"), ("priority", PyVal.int 5)] =
      .error "expiration_date is required" ∧
    handler_create_task 0 1
        [("name", PyVal.str "a"), ("description", PyVal.str "b"),
         ("status", PyVal.str "new"), ("priority", PyVal.int 5)] [] =
      (.badRequest "expiration_date is required", []) := by
  have h := C10_expiration_key_presence_required
    [("name", PyVal.str "a"), ("description", PyVal.str "b"),
     ("status", PyVal.str "new"), ("priority", PyVal.int 5)]
    (PyVal.str "a") (PyVal.str "b") (PyVal.str "new")
    rfl (by decide) rfl (by decide) rfl (by decide) rfl
  exact ⟨h.1, h.2 0 1 []⟩

/-- C8: evaluation of the code at the failing input. The single-task
endpoint does serialize its row, but the listing endpoint's loop
`for task in tasks: task = serialize_task(task)` rebinds the loop variable
and discards the serialized dict, so the response holds the raw DB rows:
`created` is still a `datetime` object rather than an ISO string, and the
row differs from its serialized form. -/
theorem C8_listing_returns_raw_rows :
    handler_get_tasks [⟨1, 7, "a", "b", "new", some "2024-05-01", 5, 100, 200⟩]
        7 [] =
      .jsonTasks [rowDict ⟨1, 7, "a", "b", "new", some "2024-05-01", 5, 100, 200⟩] ∧
    dictLookup (rowDict ⟨1, 7, "a", "b", "new", some "2024-05-01", 5, 100, 200⟩)
        "created" = some (PyVal.pydatetime 100) ∧
    rowDict ⟨1, 7, "a", "b", "new", some "2024-05-01", 5, 100, 200⟩ ≠
      serialize_task ⟨1, 7, "a", "b", "new", some "2024-05-01", 5, 100, 200⟩ ∧
    handler_get_task [⟨1, 7, "a", "b", "new", some "2024-05-01", 5, 100, 200⟩]
        7 1 =
      .jsonTask (serialize_task ⟨1, 7, "a", "b", "new", some "2024-05-01", 5, 100, 200⟩) := by
  refine ⟨rfl, rfl, ?_, rfl⟩
  decide

end App
